import Mathlib

set_option maxRecDepth 8192

/-!
Verification of the DS1820 one-wire temperature sensor driver
(`DS1820.cpp`): a shallow embedding of the driver's state, its bus
interaction (as an explicit trace of transport operations), and the
temperature-decoding arithmetic, together with theorems settling the
specification's claims.

Bytes are modelled as `Nat` values below 256; the 16-bit machine words of
the decoder are `Nat` values reduced `% 65536` exactly where the C code's
`uint16_t` assignments truncate.  The `float` result is modelled as `Rat`:
every value the decoder can produce is an integer multiple of 1/256 with
magnitude below 256, all exactly representable in single-precision
floating point, so rational arithmetic is an exact model of the C float
arithmetic performed here.
-/

/-- One bus-transport operation, as seen at the `OneWire` interface.
`readB` models `oneWire.read()` (one byte read), `waitMs n` models
`wait_ms(n)`. -/
inductive BusOp where
  | reset : BusOp
  | resetSearch : BusOp
  | search : BusOp
  | skip : BusOp
  | write : Nat → BusOp
  | readB : BusOp
  | waitMs : Nat → BusOp
  deriving DecidableEq, Repr

/-- Driver state: the member variables of class `DS1820`
(`present`, `model_s`, the 8-byte ROM address `addr` and the scratchpad
buffer `data`). -/
structure DS1820 where
  present : Bool
  model_s : Bool
  addr : List Nat
  data : List Nat
  deriving DecidableEq, Repr

/-- Byte `i` of a buffer (out-of-range reads default to 0). -/
def byte (l : List Nat) (i : Nat) : Nat := l.getD i 0

/-- Truncation of a C `int` value to `uint16_t`, as performed by an
assignment to `*p_word`. -/
def u16ofInt (n : Int) : Nat := (n % 65536).toNat

/-- `DS1820::toFloat`: interpret a 16-bit word as a signed Q7.8
fixed-point value.  `word & 0x8000` set means negative: the C code
computes `uint16_t(~word + 1)` (the two's complement, i.e.
`(65536 - w) % 65536`), negates and divides by 256. -/
def DS1820.toFloat (word : Nat) : Rat :=
  let w := word % 65536
  if w &&& 0x8000 ≠ 0 then
    -(((65536 - w) % 65536 : Nat) : Rat) / 256
  else
    (w : Rat) / 256

/-- Modelled from the spec: `OneWire::crc8` is part of the external
OneWire bus-transport library, not of this repository.  The spec names it
"Dallas/Maxim CRC-8 over a byte sequence": polynomial X^8+X^5+X^4+1,
right-shifting form with reflected polynomial byte 0x8C.  One shift step. -/
def crc8Step (crc : Nat) : Nat :=
  if crc &&& 1 = 1 then (crc >>> 1) ^^^ 0x8C else crc >>> 1

/-- Modelled from the spec: absorb one byte into the Dallas/Maxim CRC-8
accumulator (xor in the byte, then eight shift steps). -/
def crc8Byte (crc b : Nat) : Nat := crc8Step^[8] (crc ^^^ b)

/-- Modelled from the spec: Dallas/Maxim CRC-8 of a byte sequence,
accumulator initialised to 0. -/
def crc8 (bytes : List Nat) : Nat := bytes.foldl crc8Byte 0

/-- Constructor `DS1820(PinName pin)`: a generic sensor, not yet
identified.  `addr`/`data` are uninitialised memory, passed in as
parameters. -/
def DS1820.mkGeneric (addr0 data0 : List Nat) : DS1820 :=
  { present := false, model_s := false, addr := addr0, data := data0 }

/-- Constructor `DS1820(char model, PinName pin)`: a sensor of a known
model, `begin` not required.  In the fall-through branch the C code leaves
`model_s` uninitialised; the indeterminate value is the parameter `ms0`.
`addr0`/`data0` model the uninitialised buffers. -/
def DS1820.mkModel (model : Char) (ms0 : Bool) (addr0 data0 : List Nat) : DS1820 :=
  if model = 'S' ∨ model = 's' then
    { present := true, model_s := true, addr := addr0, data := data0 }
  else if model = 'B' ∨ model = 'b' then
    { present := true, model_s := false, addr := addr0, data := data0 }
  else
    { present := false, model_s := ms0, addr := addr0, data := data0 }

/-- `DS1820::begin`: search the bus for a device.  `searchRes` is the
result of `oneWire.search(addr)` — `none` when the search is exhausted,
`some a` when it filled `addr` with the 8-byte ROM code `a`.  Returns the
new driver state, the trace of bus operations, and the `bool` result. -/
def DS1820.begin : DS1820 → Option (List Nat) → DS1820 × List BusOp × Bool
  | s, none =>
      (s, [BusOp.resetSearch, BusOp.waitMs 250, BusOp.search,
           BusOp.resetSearch, BusOp.waitMs 250], false)
  | s, some a =>
      if crc8 ((List.range 7).map (fun i => byte a i)) = byte a 7 then
        if byte a 0 = 0x10 then
          ({ s with present := true, model_s := true, addr := a },
           [BusOp.resetSearch, BusOp.waitMs 250, BusOp.search], true)
        else if byte a 0 = 0x28 then
          ({ s with present := true, model_s := false, addr := a },
           [BusOp.resetSearch, BusOp.waitMs 250, BusOp.search], true)
        else if byte a 0 = 0x22 then
          ({ s with present := true, model_s := false, addr := a },
           [BusOp.resetSearch, BusOp.waitMs 250, BusOp.search], true)
        else
          ({ s with present := false, addr := a },
           [BusOp.resetSearch, BusOp.waitMs 250, BusOp.search], false)
      else
        ({ s with addr := a },
         [BusOp.resetSearch, BusOp.waitMs 250, BusOp.search], false)

/-- `DS1820::isPresent`. -/
def DS1820.isPresent (s : DS1820) : DS1820 × Bool := (s, s.present)

/-- The three clamping `if`s at the top of `DS1820::setResolution`:
`res > 12 → 12`, then `res < 9 → 9`, then `model_s → 9`. -/
def clampRes (model_s : Bool) (res : Nat) : Nat :=
  let r1 := if res > 12 then 12 else res
  let r2 := if r1 < 9 then 9 else r1
  if model_s then 9 else r2

/-- `DS1820::setResolution`: clamp the requested resolution, read the
9-byte scratchpad (the bytes the transport returns are `scratch`), or the
resolution field into configuration byte 4, and write bytes 2–4 back with
command 0x4E.  Note the C code performs this unconditionally — there is no
`present` guard. -/
def DS1820.setResolution (s : DS1820) (res : Nat) (scratch : List Nat) :
    DS1820 × List BusOp :=
  let r := clampRes s.model_s res
  let d0 := byte scratch 0 % 256
  let d1 := byte scratch 1 % 256
  let d2 := byte scratch 2 % 256
  let d3 := byte scratch 3 % 256
  let d4 := byte scratch 4 % 256
  let d5 := byte scratch 5 % 256
  let d6 := byte scratch 6 % 256
  let d7 := byte scratch 7 % 256
  let d8 := byte scratch 8 % 256
  let d4n := d4 ||| ((r - 9) <<< 5)
  ({ s with data := [d0, d1, d2, d3, d4n, d5, d6, d7, d8] },
   [BusOp.reset, BusOp.skip, BusOp.write 0xBE] ++
     List.replicate 9 BusOp.readB ++
   [BusOp.reset, BusOp.skip, BusOp.write 0x4E,
    BusOp.write d2, BusOp.write d3, BusOp.write d4n])

/-- `DS1820::startConversion`: issue command 0x44, guarded by `present`. -/
def DS1820.startConversion (s : DS1820) : DS1820 × List BusOp :=
  if s.present then (s, [BusOp.reset, BusOp.skip, BusOp.write 0x44])
  else (s, [])

/-- `DS1820::read`: when `present`, read the 9 scratchpad bytes (the bytes
the transport returns are `scratch`), decode them through the
model-dependent bit manipulation on the aliased 16-bit word `*p_word`
(every assignment truncates to 16 bits), and convert with `toFloat`;
otherwise do nothing and return 0.  The final word is written back through
`*p_word` into `data[0..1]` (little-endian). -/
def DS1820.read (s : DS1820) (scratch : List Nat) :
    DS1820 × List BusOp × Rat :=
  if s.present then
    let d0 := byte scratch 0 % 256
    let d1 := byte scratch 1 % 256
    let d2 := byte scratch 2 % 256
    let d3 := byte scratch 3 % 256
    let d4 := byte scratch 4 % 256
    let d5 := byte scratch 5 % 256
    let d6 := byte scratch 6 % 256
    let d7 := byte scratch 7 % 256
    let d8 := byte scratch 8 % 256
    let raw0 := d0 + 256 * d1
    let raw1 :=
      if s.model_s then
        let r := (raw0 <<< 3) % 65536
        if d7 = 0x10 then
          u16ofInt (((r &&& 0xFFF0 : Nat) : Int) + 12 - (d6 : Int))
        else r
      else
        let cfg := d4 &&& 0x60
        if cfg = 0x00 then raw0 &&& 0xFFF8
        else if cfg = 0x20 then raw0 &&& 0xFFFC
        else if cfg = 0x40 then raw0 &&& 0xFFFE
        else raw0
    let w := (raw1 <<< 4) % 65536
    ({ s with data := [w % 256, w / 256, d2, d3, d4, d5, d6, d7, d8] },
     [BusOp.reset, BusOp.skip, BusOp.write 0xBE] ++
       List.replicate 9 BusOp.readB,
     DS1820.toFloat w)
  else (s, [], 0)

/-- The spec's decode target, stated from the spec's words for comparison
with `DS1820.toFloat`: interpret a 16-bit word as signed Q7.8 ("1 sign
bit, 7 integer bits, 8 fractional bits, two's complement") and divide by
256. -/
def specQ78 (w : Nat) : Rat :=
  ((if w % 65536 < 32768 then ((w % 65536 : Nat) : Int)
    else ((w % 65536 : Nat) : Int) - 65536) : Rat) / 256

/-- The driver's fixed-point conversion agrees with the signed Q7.8
interpretation of the word. -/
theorem toFloat_eq_specQ78 (w : Nat) : DS1820.toFloat w = specQ78 w := by
  unfold DS1820.toFloat specQ78
  have hw : w % 65536 < 65536 := Nat.mod_lt _ (by norm_num)
  set v := w % 65536 with hv
  have hand : v &&& 0x8000 = (v.testBit 15).toNat * 2 ^ 15 := by
    have h := Nat.and_two_pow v 15
    norm_num at h ⊢
    exact h
  have htb : v.testBit 15 = decide (v / 2 ^ 15 % 2 = 1) :=
    Nat.testBit_to_div_mod
  cases h15 : v.testBit 15 with
  | false =>
      rw [h15] at hand htb
      have hlt : v < 32768 := by
        have := of_decide_eq_false htb.symm
        omega
      rw [if_neg (by simp [hand]), if_pos hlt]
      push_cast
      ring
  | true =>
      rw [h15] at hand htb
      have hge : 32768 ≤ v := by
        have := of_decide_eq_true htb.symm
        omega
      rw [if_pos (by simp [hand]), if_neg (by omega)]
      rw [Nat.mod_eq_of_lt (show 65536 - v < 65536 by omega)]
      push_cast [Nat.cast_sub (le_of_lt hw)]
      ring

/-- C3: for every 16-bit word w, `toFloat` returns minus the two's
complement of w (that is, ~w + 1 as a 16-bit unsigned value) divided by
256.0 when the sign bit 0x8000 is set in w, and w / 256.0 otherwise; in
particular 0x0190 maps to +1.5625 and 0xFE70 maps to -1.5625. -/
theorem toFloat_sign_rule (w : Nat) (hw : w < 65536) :
    (w &&& 0x8000 ≠ 0 →
       DS1820.toFloat w = -((((65535 - w) + 1) % 65536 : Nat) : Rat) / 256) ∧
    (w &&& 0x8000 = 0 → DS1820.toFloat w = (w : Rat) / 256) ∧
    DS1820.toFloat 0x0190 = 25 / 16 ∧
    DS1820.toFloat 0xFE70 = -(25 / 16) := by
  have e1 : (400 : Nat) &&& 32768 = 0 := by decide
  have e2 : (65136 : Nat) &&& 32768 = 32768 := by decide
  refine ⟨?_, ?_, by norm_num [DS1820.toFloat, e1], by norm_num [DS1820.toFloat, e2]⟩
  · intro h
    simp only [DS1820.toFloat]
    rw [Nat.mod_eq_of_lt hw, if_pos h,
      show (65536 - w) % 65536 = ((65535 - w) + 1) % 65536 by omega]
  · intro h
    simp only [DS1820.toFloat]
    rw [Nat.mod_eq_of_lt hw, if_neg (by simp [h])]

/-- Witness for C3: the negative branch at w = 0xFE70. -/
theorem toFloat_sign_rule_witness :
    (0xFE70 : Nat) < 65536 ∧ (0xFE70 : Nat) &&& 0x8000 ≠ 0 ∧
    DS1820.toFloat 0xFE70 = -((((65535 - 0xFE70) + 1) % 65536 : Nat) : Rat) / 256 :=
  ⟨by norm_num, by decide, (toFloat_sign_rule 0xFE70 (by norm_num)).1 (by decide)⟩

/-- C1: on an S-family device (present, model_s), `read` decodes the
scratchpad by shifting the little-endian word of bytes 0-1 left by 3,
refining with the count-remain byte 6 when byte 7 is exactly 0x10
(raw = (raw & 0xFFF0) + 12 - byte6), shifting left by 4 and applying the
Q7.8 fixed-point rule; at the claimed instance (byte7 = 0x10, byte6 = 4,
post-shift base 0x00A0) the refined value is 0x00A8. -/
theorem read_sFamily_decode (s : DS1820) (scratch : List Nat)
    (hp : s.present = true) (hm : s.model_s = true) :
    (DS1820.read s scratch).2.2 =
      specQ78
        ((((if byte scratch 7 % 256 = 0x10 then
              u16ofInt
                (((((byte scratch 0 % 256 + 256 * (byte scratch 1 % 256)) * 2 ^ 3) % 2 ^ 16
                    &&& 0xFFF0 : Nat) : Int) + 12 - ((byte scratch 6 % 256 : Nat) : Int))
            else ((byte scratch 0 % 256 + 256 * (byte scratch 1 % 256)) * 2 ^ 3) % 2 ^ 16)
          * 2 ^ 4) % 2 ^ 16)) ∧
    u16ofInt (((0x00A0 &&& 0xFFF0 : Nat) : Int) + 12 - 4) = 0x00A8 := by
  constructor
  · simp only [DS1820.read, hp, hm, if_true, toFloat_eq_specQ78]
    norm_num [Nat.shiftLeft_eq]
  · decide

/-- Witness for C1: scratchpad with byte7 = 0x10, byte6 = 4 and raw word
0x14 (so post-shift base 0x00A0); the decoded temperature is 10.5. -/
theorem read_sFamily_decode_witness :
    (DS1820.read (DS1820.mkModel 'S' false [] [])
      [0x14, 0, 0, 0, 0, 0, 4, 0x10, 0]).2.2 = 21 / 2 := by
  have h := read_sFamily_decode (DS1820.mkModel 'S' false [] [])
    [0x14, 0, 0, 0, 0, 0, 4, 0x10, 0] (by decide) (by decide)
  rw [h.1]
  have e1 : (160 : Nat) &&& 65520 = 160 := by decide
  have e2 : Int.toNat 168 = 168 := rfl
  norm_num [specQ78, byte, u16ofInt, e1, e2]

/-- C2: on a B-family device (present, not model_s), `read` decodes the
scratchpad by masking the little-endian word of bytes 0-1 according to the
configuration field byte4 & 0x60 (0x00: clear low 3 bits, 0x20: clear low
2 bits, 0x40: clear low 1 bit, otherwise unchanged), shifting left by 4
and applying the Q7.8 fixed-point rule. -/
theorem read_bFamily_decode (s : DS1820) (scratch : List Nat)
    (hp : s.present = true) (hm : s.model_s = false) :
    (DS1820.read s scratch).2.2 =
      specQ78
        (((if (byte scratch 4 % 256) &&& 0x60 = 0x00 then
             (byte scratch 0 % 256 + 256 * (byte scratch 1 % 256)) &&& 0xFFF8
           else if (byte scratch 4 % 256) &&& 0x60 = 0x20 then
             (byte scratch 0 % 256 + 256 * (byte scratch 1 % 256)) &&& 0xFFFC
           else if (byte scratch 4 % 256) &&& 0x60 = 0x40 then
             (byte scratch 0 % 256 + 256 * (byte scratch 1 % 256)) &&& 0xFFFE
           else byte scratch 0 % 256 + 256 * (byte scratch 1 % 256))
          * 2 ^ 4) % 2 ^ 16) := by
  simp only [DS1820.read, hp, hm, toFloat_eq_specQ78]
  norm_num [Nat.shiftLeft_eq]

/-- Witness for C2: representative B-family scratchpads in 9-bit mode
(byte4 & 0x60 = 0) spanning positive, negative and zero raw values. -/
theorem read_bFamily_decode_witness :
    (DS1820.read (DS1820.mkModel 'B' false [] [])
      [0x95, 0x01, 0, 0, 0, 0, 0, 0, 0]).2.2 = 25 ∧
    (DS1820.read (DS1820.mkModel 'B' false [] [])
      [0x5E, 0xFF, 0, 0, 0, 0, 0, 0, 0]).2.2 = -(21 / 2) ∧
    (DS1820.read (DS1820.mkModel 'B' false [] [])
      [0, 0, 0, 0, 0, 0, 0, 0, 0]).2.2 = 0 := by
  have e1 : (405 : Nat) &&& 65528 = 400 := by decide
  have e2 : (65374 : Nat) &&& 65528 = 65368 := by decide
  have e3 : (0 : Nat) &&& 65528 = 0 := by decide
  have e4 : (0 : Nat) &&& 96 = 0 := by decide
  refine ⟨?_, ?_, ?_⟩ <;>
  · rw [read_bFamily_decode _ _ (by decide) (by decide)]
    norm_num [specQ78, byte, u16ofInt, e1, e2, e3, e4]

/-- C4 is refuted as stated: the all-zero ROM address has a valid CRC-8
(the CRC of seven zero bytes is 0, equal to byte 7), yet `begin` fails,
because the family code 0x00 is unsupported — so CRC validity is not
equivalent to `begin` succeeding. -/
theorem begin_crc_iff_cex :
    ¬(crc8 ((List.range 7).map fun i => byte [0, 0, 0, 0, 0, 0, 0, 0] i) =
        byte [0, 0, 0, 0, 0, 0, 0, 0] 7 ↔
      (DS1820.begin (DS1820.mkGeneric [] [])
        (some [0, 0, 0, 0, 0, 0, 0, 0])).2.2 = true) := by
  set_option maxRecDepth 4096 in decide

/-- C4 amended: for every 8-byte address enumerated by the search, `begin`
reports success if and only if the CRC-8 over the first 7 bytes equals the
8th byte AND the family byte is one of 0x10, 0x28, 0x22. -/
theorem begin_success_iff (s : DS1820) (a : List Nat) :
    (DS1820.begin s (some a)).2.2 = true ↔
      (crc8 ((List.range 7).map fun i => byte a i) = byte a 7 ∧
       (byte a 0 = 0x10 ∨ byte a 0 = 0x28 ∨ byte a 0 = 0x22)) := by
  simp only [DS1820.begin]
  split_ifs with h1 h2 h3 h4 <;> simp_all

/-- C5: once the CRC check has passed, classification in `begin` is a pure
function of address byte 0: 0x10 is S-family, 0x28 and 0x22 are B-family,
and every other value makes `begin` return false with `present` false
after the call. -/
theorem begin_family_classification (s : DS1820) (a : List Nat)
    (hcrc : crc8 ((List.range 7).map fun i => byte a i) = byte a 7) :
    (byte a 0 = 0x10 →
      (DS1820.begin s (some a)).2.2 = true ∧
      (DS1820.begin s (some a)).1.present = true ∧
      (DS1820.begin s (some a)).1.model_s = true) ∧
    ((byte a 0 = 0x28 ∨ byte a 0 = 0x22) →
      (DS1820.begin s (some a)).2.2 = true ∧
      (DS1820.begin s (some a)).1.present = true ∧
      (DS1820.begin s (some a)).1.model_s = false) ∧
    (byte a 0 ≠ 0x10 → byte a 0 ≠ 0x28 → byte a 0 ≠ 0x22 →
      (DS1820.begin s (some a)).2.2 = false ∧
      (DS1820.begin s (some a)).1.present = false) := by
  simp only [DS1820.begin]
  rw [if_pos hcrc]
  refine ⟨?_, ?_, ?_⟩
  · intro h0
    rw [if_pos h0]
    exact ⟨rfl, rfl, rfl⟩
  · rintro (h0 | h0)
    · rw [if_neg (by simp [h0]), if_pos h0]
      exact ⟨rfl, rfl, rfl⟩
    · rw [if_neg (by simp [h0]), if_neg (by simp [h0]), if_pos h0]
      exact ⟨rfl, rfl, rfl⟩
  · intro h1 h2 h3
    rw [if_neg h1, if_neg h2, if_neg h3]
    exact ⟨rfl, rfl⟩

/-- Witness for C5: a concrete S-family address with valid CRC
(crc8 of [0x10, 0, 0, 0, 0, 0, 0] is 251). -/
theorem begin_family_classification_witness :
    crc8 ((List.range 7).map fun i => byte [0x10, 0, 0, 0, 0, 0, 0, 251] i) =
      byte [0x10, 0, 0, 0, 0, 0, 0, 251] 7 ∧
    ((DS1820.begin (DS1820.mkGeneric [] [])
        (some [0x10, 0, 0, 0, 0, 0, 0, 251])).2.2 = true ∧
     (DS1820.begin (DS1820.mkGeneric [] [])
        (some [0x10, 0, 0, 0, 0, 0, 0, 251])).1.present = true ∧
     (DS1820.begin (DS1820.mkGeneric [] [])
        (some [0x10, 0, 0, 0, 0, 0, 0, 251])).1.model_s = true) :=
  ⟨by decide,
   (begin_family_classification (DS1820.mkGeneric [] [])
      [0x10, 0, 0, 0, 0, 0, 0, 251] (by decide)).1 (by decide)⟩

/-- C6 is refuted as stated: with `present = false`, `setResolution` still
performs bus-transport operations and modifies the driver's data buffer —
the C code has no `present` guard in `setResolution`. -/
theorem setResolution_notPresent_cex :
    (DS1820.mkGeneric [] []).present = false ∧
    (DS1820.setResolution (DS1820.mkGeneric [] []) 12
      [0, 0, 0, 0, 0, 0, 0, 0, 0]).2 ≠ [] ∧
    (DS1820.setResolution (DS1820.mkGeneric [] []) 12
      [0, 0, 0, 0, 0, 0, 0, 0, 0]).1 ≠ DS1820.mkGeneric [] [] := by
  decide

/-- C6 amended: `setResolution` is not guarded by `present`: in every
driver state, present or not, it performs the full scratchpad-read and
write-back bus sequence; it does leave `present` and `model_s`
unchanged. -/
theorem setResolution_unguarded (s : DS1820) (res : Nat) (scratch : List Nat) :
    (DS1820.setResolution s res scratch).2 =
      [BusOp.reset, BusOp.skip, BusOp.write 0xBE] ++
        List.replicate 9 BusOp.readB ++
      [BusOp.reset, BusOp.skip, BusOp.write 0x4E,
       BusOp.write (byte scratch 2 % 256), BusOp.write (byte scratch 3 % 256),
       BusOp.write ((byte scratch 4 % 256) |||
         ((clampRes s.model_s res - 9) <<< 5))] ∧
    (DS1820.setResolution s res scratch).2 ≠ [] ∧
    (DS1820.setResolution s res scratch).1.present = s.present ∧
    (DS1820.setResolution s res scratch).1.model_s = s.model_s :=
  ⟨rfl, by simp [DS1820.setResolution], rfl, rfl⟩

/-- C7 is refuted as stated: `setResolution` ORs the new resolution bits
into configuration byte 4 instead of overwriting the field.  With the
field already 0x60 (12-bit) and a request of 9 bits, the written field
stays 0x60 instead of the claimed (9 - 9) << 5 = 0x00. -/
theorem setResolution_patch_cex :
    clampRes (DS1820.mkModel 'B' false [] []).model_s 9 = 9 ∧
    byte (DS1820.setResolution (DS1820.mkModel 'B' false [] []) 9
      [0, 0, 0, 0, 0x60, 0, 0, 0, 0]).1.data 4 &&& 0x60 = 0x60 ∧
    (((9 : Nat) - 9) <<< 5) = 0 := by
  decide

/-- C7 amended: `setResolution` clamps the request to [9,12] (5, 9, 12, 20
map to 9, 9, 12, 12; any request on an S-family device is pinned to 9),
reads the full 9-byte scratchpad, ORs (clamped bits - 9) << 5 into the
configuration byte (it does not clear the field's previous bits), and
writes scratchpad bytes 2-4 back via command 0x4E. -/
theorem setResolution_clamp_write (s : DS1820) (res : Nat) (scratch : List Nat) :
    9 ≤ clampRes s.model_s res ∧ clampRes s.model_s res ≤ 12 ∧
    clampRes false 5 = 9 ∧ clampRes false 9 = 9 ∧
    clampRes false 12 = 12 ∧ clampRes false 20 = 12 ∧
    clampRes true res = 9 ∧
    byte (DS1820.setResolution s res scratch).1.data 4 =
      (byte scratch 4 % 256) ||| ((clampRes s.model_s res - 9) <<< 5) ∧
    (DS1820.setResolution s res scratch).2 =
      [BusOp.reset, BusOp.skip, BusOp.write 0xBE] ++
        List.replicate 9 BusOp.readB ++
      [BusOp.reset, BusOp.skip, BusOp.write 0x4E,
       BusOp.write (byte scratch 2 % 256), BusOp.write (byte scratch 3 % 256),
       BusOp.write ((byte scratch 4 % 256) |||
         ((clampRes s.model_s res - 9) <<< 5))] := by
  refine ⟨?_, ?_, by decide, by decide, by decide, by decide, ?_, rfl, rfl⟩
  · simp only [clampRes]
    split_ifs <;> omega
  · simp only [clampRes]
    split_ifs <;> omega
  · simp [clampRes]

/-- C8: in every driver state with present = false, `startConversion`
performs no bus operations and `read` performs no bus operations and
returns the zero sentinel; neither changes the state. -/
theorem notPresent_noop (s : DS1820) (scratch : List Nat)
    (h : s.present = false) :
    (DS1820.startConversion s).2 = [] ∧ (DS1820.startConversion s).1 = s ∧
    (DS1820.read s scratch).2.1 = [] ∧ (DS1820.read s scratch).2.2 = 0 ∧
    (DS1820.read s scratch).1 = s := by
  simp [DS1820.startConversion, DS1820.read, h]

/-- Witness for C8: a freshly constructed generic driver. -/
theorem notPresent_noop_witness :
    (DS1820.mkGeneric [] []).present = false ∧
    ((DS1820.startConversion (DS1820.mkGeneric [] [])).2 = [] ∧
     (DS1820.startConversion (DS1820.mkGeneric [] [])).1 =
       DS1820.mkGeneric [] [] ∧
     (DS1820.read (DS1820.mkGeneric [] []) [1, 2, 3, 4, 5, 6, 7, 8, 9]).2.1 = [] ∧
     (DS1820.read (DS1820.mkGeneric [] []) [1, 2, 3, 4, 5, 6, 7, 8, 9]).2.2 = 0 ∧
     (DS1820.read (DS1820.mkGeneric [] []) [1, 2, 3, 4, 5, 6, 7, 8, 9]).1 =
       DS1820.mkGeneric [] []) :=
  ⟨rfl, notPresent_noop (DS1820.mkGeneric [] []) [1, 2, 3, 4, 5, 6, 7, 8, 9] rfl⟩

/-- C9: two consecutive `read` calls for which the transport returns the
same 9 scratchpad bytes produce equal results, in every driver state. -/
theorem read_idempotent (s : DS1820) (scratch : List Nat) :
    (DS1820.read (DS1820.read s scratch).1 scratch).2.2 =
      (DS1820.read s scratch).2.2 := by
  cases hp : s.present <;> cases hm : s.model_s <;>
    simp [DS1820.read, hp, hm]

/-- C10: `setResolution`, `startConversion`, `read` and `isPresent` never
change the identity fields `present` and `model_s`; and `begin` leaves
them at their prior values when it fails because the search found no
device or because the address CRC-8 check failed (returning false). -/
theorem identity_fields_frame (s : DS1820) (res : Nat) (scratch a : List Nat)
    (hcrc : crc8 ((List.range 7).map fun i => byte a i) ≠ byte a 7) :
    (DS1820.setResolution s res scratch).1.present = s.present ∧
    (DS1820.setResolution s res scratch).1.model_s = s.model_s ∧
    (DS1820.startConversion s).1 = s ∧
    (DS1820.read s scratch).1.present = s.present ∧
    (DS1820.read s scratch).1.model_s = s.model_s ∧
    (DS1820.isPresent s).1 = s ∧
    (DS1820.begin s none).1 = s ∧
    (DS1820.begin s (some a)).1.present = s.present ∧
    (DS1820.begin s (some a)).1.model_s = s.model_s ∧
    (DS1820.begin s (some a)).2.2 = false := by
  refine ⟨rfl, rfl, ?_, ?_, ?_, rfl, rfl, ?_, ?_, ?_⟩
  · unfold DS1820.startConversion
    split <;> rfl
  · unfold DS1820.read
    split <;> rfl
  · unfold DS1820.read
    split <;> rfl
  · simp only [DS1820.begin]
    rw [if_neg hcrc]
  · simp only [DS1820.begin]
    rw [if_neg hcrc]
  · simp only [DS1820.begin]
    rw [if_neg hcrc]

/-- Witness for C10: a B-model driver and an address whose CRC-8 fails
(crc8 of [0x28, 0, 0, 0, 0, 0, 0] is 30, not 31). -/
theorem identity_fields_frame_witness :
    crc8 ((List.range 7).map fun i => byte [0x28, 0, 0, 0, 0, 0, 0, 31] i) ≠
      byte [0x28, 0, 0, 0, 0, 0, 0, 31] 7 ∧
    ((DS1820.begin (DS1820.mkModel 'B' false [] [])
        (some [0x28, 0, 0, 0, 0, 0, 0, 31])).1.present =
      (DS1820.mkModel 'B' false [] []).present ∧
     (DS1820.begin (DS1820.mkModel 'B' false [] [])
        (some [0x28, 0, 0, 0, 0, 0, 0, 31])).2.2 = false) :=
  ⟨by decide,
   (identity_fields_frame (DS1820.mkModel 'B' false [] []) 12 []
      [0x28, 0, 0, 0, 0, 0, 0, 31] (by decide)).2.2.2.2.2.2.2.1,
   (identity_fields_frame (DS1820.mkModel 'B' false [] []) 12 []
      [0x28, 0, 0, 0, 0, 0, 0, 31] (by decide)).2.2.2.2.2.2.2.2.2⟩

